import Mathlib

/-!
# MongoChains sample migration `sample/migrations/1/up.js`

The repository's only source file is a migration script for the MongoDB shell:

```
var artDb = db.getSiblingDB("Art");
artDb.createCollection("paintings");
artDb.createCollection("sculptures");
var paintings = [ {Mona Lisa ...}, {My first painting ...} ];
var paintingsCollection = artDb.getCollection("paintings");
paintingsCollection.insert(paintings);
```

The script is embedded as the function `up`, which takes the database driver
(the shell object `db`) as a parameter: a record of the four methods the script
calls, each returning either an error or a result together with the new state
of the document store.  A script is a function on sessions (store and trace of
the driver calls issued so far); a failing call ends the script with that
error and keeps the session as it was reached.

The driver is not part of the repository.  `mongo` is a reference model of it,
parameterised by a fault oracle that decides, per call and per store, whether
the call fails, so that every statement about `mongo fault` holds for all
patterns of failing calls.
-/

namespace MongoChains

/-! ## Documents -/

/-- Field values of a document: the script's literals are strings and the
whole numbers 1503 and 2018; `objectId` is the identifier a driver generates
for a document inserted without an `_id` field. -/
inductive Value where
  | str (s : String)
  | num (n : Int)
  | objectId (n : Nat)
  deriving DecidableEq

/-- A document is an ordered list of named fields, as an object literal is. -/
abbrev Document := List (String × Value)

/-- First element of the array literal `paintings` (up.js lines 7-12). -/
def monaLisa : Document :=
  [("Name", .str "Mona Lisa"),
   ("Artist", .str "Leonardo da Vinci"),
   ("Year", .num 1503),
   ("Medium", .str "Oil Paint")]

/-- Second element of the array literal `paintings` (up.js lines 13-18).  The
artist is the placeholder text, braces included, exactly as written. -/
def myFirstPainting : Document :=
  [("Name", .str "My first painting"),
   ("Artist", .str "\x7b#MyName\x7d"),
   ("Year", .num 2018),
   ("Medium", .str "Crayons")]

/-- The array bound by `var paintings = [...]` (up.js lines 5-19). -/
def paintings : List Document := [monaLisa, myFirstPainting]

/-! ## Store, driver and sessions -/

/-- State of the document store: the content of every collection of every
database (`none` when the collection does not exist), and the counter from
which the driver draws fresh object identifiers. -/
structure Store where
  colls : String → String → Option (List Document)
  nextObjectId : Nat

/-- Handle returned by `getSiblingDB`. -/
structure DbHandle where
  name : String
  deriving DecidableEq

/-- Handle returned by `getCollection`. -/
structure CollHandle where
  db : String
  name : String
  deriving DecidableEq

/-- Errors a driver call can end with. -/
inductive MongoError where
  | namespaceExists
  | duplicateKey
  | unavailable
  deriving DecidableEq

/-- A driver call as it appears in the trace: the method, the handle it is
invoked on, and its arguments. -/
inductive Call where
  | getSiblingDB (name : String)
  | createCollection (db : DbHandle) (name : String)
  | getCollection (db : DbHandle) (name : String)
  | insert (coll : CollHandle) (docs : List Document)
  deriving DecidableEq

/-- The database driver the script runs against: the four methods up.js calls.
Each returns either an error or its result with the new store. -/
structure Driver where
  getSiblingDB : String → Store → Except MongoError (DbHandle × Store)
  createCollection : DbHandle → String → Store → Except MongoError (Unit × Store)
  getCollection : DbHandle → String → Store → Except MongoError (CollHandle × Store)
  insert : CollHandle → List Document → Store → Except MongoError (Unit × Store)

/-- What a running script carries: the store and the driver calls issued. -/
structure Session where
  store : Store
  trace : List Call

/-- A script: from a session to its outcome and the session it ends in.  The
session is returned on failure too, nothing is rolled back. -/
def Script (α : Type) : Type := Session → Except MongoError α × Session

/-- A script that only returns a value. -/
def Script.pure {α : Type} (a : α) : Script α := fun ss => (.ok a, ss)

/-- Statement sequencing: an uncaught error ends the script, the rest is not run. -/
def Script.bind {α β : Type} (m : Script α) (f : α → Script β) : Script β := fun ss =>
  match m ss with
  | (.ok a, ss1) => f a ss1
  | (.error e, ss1) => (.error e, ss1)

instance : Monad Script where
  pure := Script.pure
  bind := Script.bind

/-- Issue one driver call: it is appended to the trace, then the driver's
method runs on the store; on an error the store stays as it was. -/
def invoke {α : Type} (c : Call) (op : Store → Except MongoError (α × Store)) : Script α :=
  fun ss =>
    match op ss.store with
    | .ok (a, st) => (.ok a, { store := st, trace := ss.trace ++ [c] })
    | .error e => (.error e, { store := ss.store, trace := ss.trace ++ [c] })

/-- Script-level `db.getSiblingDB(name)`. -/
def getSiblingDB (db : Driver) (name : String) : Script DbHandle :=
  invoke (.getSiblingDB name) (db.getSiblingDB name)

/-- Script-level `h.createCollection(name)`; the returned value is dropped. -/
def createCollection (db : Driver) (h : DbHandle) (name : String) : Script Unit :=
  invoke (.createCollection h name) (db.createCollection h name)

/-- Script-level `h.getCollection(name)`. -/
def getCollection (db : Driver) (h : DbHandle) (name : String) : Script CollHandle :=
  invoke (.getCollection h name) (db.getCollection h name)

/-- Script-level `c.insert(docs)`; the returned value is dropped. -/
def insert (db : Driver) (c : CollHandle) (docs : List Document) : Script Unit :=
  invoke (.insert c docs) (db.insert c docs)

/-- The script `sample/migrations/1/up.js`, statement by statement. -/
def up (db : Driver) : Script Unit := do
  let artDb ← getSiblingDB db "Art"
  createCollection db artDb "paintings"
  createCollection db artDb "sculptures"
  let paintingsCollection ← getCollection db artDb "paintings"
  insert db paintingsCollection paintings

/-- One run of up.js from a store, with an empty trace. -/
def run (db : Driver) (s : Store) : Except MongoError Unit × Session :=
  up db { store := s, trace := [] }

/-! ## Reference model of the driver -/

/-- The store with collection `c` of database `d` set to `docs`. -/
def Store.setColl (s : Store) (d c : String) (docs : List Document) : Store :=
  { colls := fun d1 c1 => if d1 = d ∧ c1 = c then some docs else s.colls d1 c1
    nextObjectId := s.nextObjectId }

/-- The store in which collection `c` of database `d` exists: made empty when
it was absent, left as it is when it was there. -/
def Store.ensureColl (s : Store) (d c : String) : Store :=
  match s.colls d c with
  | some _ => s
  | none => s.setColl d c []

/-- The document as stored: one without an `_id` field gets a fresh object
identifier as its first field. -/
def withId (n : Nat) (d : Document) : Document := ("_id", .objectId n) :: d

/-- Insert one document into a collection: assign an `_id` if it has none,
reject it if a stored document already has that `_id`, else append it. -/
def insertOne (coll : List Document) (next : Nat) (d : Document) :
    Except MongoError (List Document × Nat) :=
  match d.lookup "_id" with
  | some v =>
    if coll.any (fun x => x.lookup "_id" == some v) then .error .duplicateKey
    else .ok (coll ++ [d], next)
  | none =>
    if coll.any (fun x => x.lookup "_id" == some (.objectId next)) then .error .duplicateKey
    else .ok (coll ++ [withId next d], next + 1)

/-- Insert an array of documents in order; the call either stores them all or
fails. -/
def insertMany : List Document → Nat → List Document → Except MongoError (List Document × Nat)
  | coll, next, [] => .ok (coll, next)
  | coll, next, d :: ds =>
    match insertOne coll next d with
    | .ok (coll1, next1) => insertMany coll1 next1 ds
    | .error e => .error e

/-- Fault oracle: whether a call made on a store fails, and with what. -/
abbrev Fault := Call → Store → Option MongoError

/-- Reference model of the MongoDB shell driver.  Handles are made from the
names given; `createCollection` makes an absent collection and leaves an
existing one as it is; `insert` appends to the collection, making it when
absent.  Every call first asks the fault oracle. -/
def mongo (fault : Fault) : Driver where
  getSiblingDB name s :=
    match fault (.getSiblingDB name) s with
    | some e => .error e
    | none => .ok ({ name := name }, s)
  createCollection h name s :=
    match fault (.createCollection h name) s with
    | some e => .error e
    | none =>
      .ok ((), s.ensureColl h.name name)
  getCollection h name s :=
    match fault (.getCollection h name) s with
    | some e => .error e
    | none => .ok ({ db := h.name, name := name }, s)
  insert c docs s :=
    match fault (.insert c docs) s with
    | some e => .error e
    | none =>
      match insertMany ((s.colls c.db c.name).getD []) s.nextObjectId docs with
      | .ok (coll, next) =>
        .ok ((), { colls := (s.setColl c.db c.name coll).colls, nextObjectId := next })
      | .error e => .error e

/-- The oracle under which no call fails. -/
def noFault : Fault := fun _ _ => none

/-- The store with no collection at all. -/
def emptyStore : Store := { colls := fun _ _ => none, nextObjectId := 0 }

/-- The oracle under which every call fails as unavailable. -/
def allFault : Fault := fun _ _ => some .unavailable

/-- The oracle under which exactly the `insert` calls fail. -/
def insertFault : Fault := fun c _ =>
  match c with
  | .insert _ _ => some .unavailable
  | _ => none

/-- The oracle under which exactly `createCollection` of "sculptures" fails. -/
def sculpturesFault : Fault := fun c _ =>
  match c with
  | .createCollection _ name => if name = "sculptures" then some .unavailable else none
  | _ => none

/-- Whether a call is a database command (it can change the store) rather
than the construction of a handle. -/
def Call.isCommand : Call → Bool
  | .getSiblingDB _ => false
  | .createCollection _ _ => true
  | .getCollection _ _ => false
  | .insert _ _ => true

/-- The five driver calls of up.js, in program order, for the handles the
driver returned. -/
def scriptCalls (a : DbHandle) (c : CollHandle) : List Call :=
  [.getSiblingDB "Art", .createCollection a "paintings", .createCollection a "sculptures",
   .getCollection a "paintings", .insert c paintings]

/-- The three calls named "create collection, create collection, insert
documents". -/
def scriptCommands (a : DbHandle) (c : CollHandle) : List Call :=
  [.createCollection a "paintings", .createCollection a "sculptures", .insert c paintings]

/-- The documents of Art.paintings, none when the collection is absent. -/
def artPaintings (s : Store) : List Document := (s.colls "Art" "paintings").getD []

/-- The store once both `createCollection` calls have succeeded. -/
def Store.created (s : Store) : Store :=
  (s.ensureColl "Art" "paintings").ensureColl "Art" "sculptures"

/-- The store after a successful insert of `paintings` into Art.paintings. -/
def Store.withPaintings (s : Store) : Store :=
  { colls := (s.setColl "Art" "paintings"
      ((s.colls "Art" "paintings").getD [] ++
        [withId s.nextObjectId monaLisa, withId (s.nextObjectId + 1) myFirstPainting])).colls
    nextObjectId := s.nextObjectId + 2 }

/-- The fields of a stored document that the script wrote: all but `_id`. -/
def userFields (d : Document) : Document := d.filter (fun kv => kv.1 != "_id")

/-- A store in which Art.paintings and Art.sculptures exist with one document
each, next to a collection of another database. -/
def galleryStore : Store :=
  { colls := fun d c =>
      if d = "Art" ∧ c = "paintings" then
        some [[("_id", .objectId 0), ("Name", .str "Sunflowers")]]
      else if d = "Art" ∧ c = "sculptures" then
        some [[("_id", .objectId 1), ("Name", .str "David")]]
      else if d = "Shop" ∧ c = "orders" then some []
      else none
    nextObjectId := 2 }

/-! ## The script, call by call -/

section Steps

variable (D : Driver) (ss : Session)

theorem up_getSiblingDB_error {e : MongoError}
    (h1 : D.getSiblingDB "Art" ss.store = .error e) :
    up D ss = (.error e, { store := ss.store, trace := ss.trace ++ [.getSiblingDB "Art"] }) := by
  simp [up, bind, Script.bind, getSiblingDB, invoke, h1]

theorem up_createPaintings_error {a : DbHandle} {s1 : Store} {e : MongoError}
    (h1 : D.getSiblingDB "Art" ss.store = .ok (a, s1))
    (h2 : D.createCollection a "paintings" s1 = .error e) :
    up D ss = (.error e, { store := s1, trace := ss.trace ++
      [.getSiblingDB "Art", .createCollection a "paintings"] }) := by
  simp [up, bind, Script.bind, getSiblingDB, createCollection, invoke, h1, h2]

theorem up_createSculptures_error {a : DbHandle} {s1 s2 : Store} {e : MongoError}
    (h1 : D.getSiblingDB "Art" ss.store = .ok (a, s1))
    (h2 : D.createCollection a "paintings" s1 = .ok ((), s2))
    (h3 : D.createCollection a "sculptures" s2 = .error e) :
    up D ss = (.error e, { store := s2, trace := ss.trace ++
      [.getSiblingDB "Art", .createCollection a "paintings",
       .createCollection a "sculptures"] }) := by
  simp [up, bind, Script.bind, getSiblingDB, createCollection, invoke, h1, h2, h3]

theorem up_getCollection_error {a : DbHandle} {s1 s2 s3 : Store} {e : MongoError}
    (h1 : D.getSiblingDB "Art" ss.store = .ok (a, s1))
    (h2 : D.createCollection a "paintings" s1 = .ok ((), s2))
    (h3 : D.createCollection a "sculptures" s2 = .ok ((), s3))
    (h4 : D.getCollection a "paintings" s3 = .error e) :
    up D ss = (.error e, { store := s3, trace := ss.trace ++
      [.getSiblingDB "Art", .createCollection a "paintings",
       .createCollection a "sculptures", .getCollection a "paintings"] }) := by
  simp [up, bind, Script.bind, getSiblingDB, createCollection, getCollection, invoke,
    h1, h2, h3, h4]

theorem up_insert_error {a : DbHandle} {c : CollHandle} {s1 s2 s3 s4 : Store} {e : MongoError}
    (h1 : D.getSiblingDB "Art" ss.store = .ok (a, s1))
    (h2 : D.createCollection a "paintings" s1 = .ok ((), s2))
    (h3 : D.createCollection a "sculptures" s2 = .ok ((), s3))
    (h4 : D.getCollection a "paintings" s3 = .ok (c, s4))
    (h5 : D.insert c paintings s4 = .error e) :
    up D ss = (.error e, { store := s4, trace := ss.trace ++ scriptCalls a c }) := by
  simp [up, bind, Script.bind, getSiblingDB, createCollection, getCollection, insert, invoke,
    scriptCalls, h1, h2, h3, h4, h5]

theorem up_all_ok {a : DbHandle} {c : CollHandle} {s1 s2 s3 s4 s5 : Store}
    (h1 : D.getSiblingDB "Art" ss.store = .ok (a, s1))
    (h2 : D.createCollection a "paintings" s1 = .ok ((), s2))
    (h3 : D.createCollection a "sculptures" s2 = .ok ((), s3))
    (h4 : D.getCollection a "paintings" s3 = .ok (c, s4))
    (h5 : D.insert c paintings s4 = .ok ((), s5)) :
    up D ss = (.ok (), { store := s5, trace := ss.trace ++ scriptCalls a c }) := by
  simp [up, bind, Script.bind, getSiblingDB, createCollection, getCollection, insert, invoke,
    scriptCalls, h1, h2, h3, h4, h5]

end Steps

/-! ## The reference driver, method by method -/

theorem monaLisa_no_id : List.lookup "_id" monaLisa = none := by decide

theorem myFirstPainting_no_id : List.lookup "_id" myFirstPainting = none := by decide

theorem insertMany_paintings_ok {coll coll1 : List Document} {n n1 : Nat}
    (h : insertMany coll n paintings = .ok (coll1, n1)) :
    coll1 = coll ++ [withId n monaLisa, withId (n + 1) myFirstPainting] ∧ n1 = n + 2 := by
  simp only [paintings, insertMany, insertOne, monaLisa_no_id, myFirstPainting_no_id] at h
  split at h
  · rename_i c1 m1 h1
    split at h1
    · cases h1
    · cases h1
      split at h
      · rename_i c2 m2 h2
        split at h2
        · cases h2
        · cases h2
          cases h
          simp
      · cases h
  · cases h

theorem mongo_getSiblingDB_ok {fault : Fault} {name : String} {s s1 : Store} {a : DbHandle}
    (h : (mongo fault).getSiblingDB name s = .ok (a, s1)) : a = { name := name } ∧ s1 = s := by
  simp only [mongo] at h
  split at h
  · cases h
  · cases h
    exact ⟨rfl, rfl⟩

theorem mongo_createCollection_ok {fault : Fault} {a : DbHandle} {name : String} {s s1 : Store}
    (h : (mongo fault).createCollection a name s = .ok ((), s1)) :
    s1 = s.ensureColl a.name name := by
  simp only [mongo] at h
  split at h
  · cases h
  · cases h
    rfl

theorem mongo_getCollection_ok {fault : Fault} {a : DbHandle} {name : String} {s s1 : Store}
    {c : CollHandle} (h : (mongo fault).getCollection a name s = .ok (c, s1)) :
    c = { db := a.name, name := name } ∧ s1 = s := by
  simp only [mongo] at h
  split at h
  · cases h
  · cases h
    exact ⟨rfl, rfl⟩

theorem mongo_insert_paintings_ok {fault : Fault} {s s1 : Store}
    (h : (mongo fault).insert { db := "Art", name := "paintings" } paintings s = .ok ((), s1)) :
    s1 = s.withPaintings := by
  simp only [mongo] at h
  split at h
  · cases h
  · split at h
    · rename_i coll next hm
      obtain ⟨rfl, rfl⟩ := insertMany_paintings_ok hm
      cases h
      rfl
    · cases h

/-! ## Collections of the stores a run passes through -/

theorem ensureColl_colls (s : Store) (d c d1 c1 : String) :
    (s.ensureColl d c).colls d1 c1 =
      if d1 = d ∧ c1 = c then some ((s.colls d c).getD []) else s.colls d1 c1 := by
  unfold Store.ensureColl
  split
  · rename_i docs hs
    split
    · rename_i hdc
      obtain ⟨rfl, rfl⟩ := hdc
      simp [hs]
    · rfl
  · rename_i hs
    simp [Store.setColl, hs]

theorem ensureColl_nextObjectId (s : Store) (d c : String) :
    (s.ensureColl d c).nextObjectId = s.nextObjectId := by
  unfold Store.ensureColl
  split <;> rfl

theorem withPaintings_colls (s : Store) (d1 c1 : String) :
    s.withPaintings.colls d1 c1 =
      if d1 = "Art" ∧ c1 = "paintings" then
        some ((s.colls "Art" "paintings").getD [] ++
          [withId s.nextObjectId monaLisa, withId (s.nextObjectId + 1) myFirstPainting])
      else s.colls d1 c1 := rfl

theorem created_colls (s : Store) (d1 c1 : String) :
    s.created.colls d1 c1 =
      if d1 = "Art" ∧ c1 = "sculptures" then some ((s.colls "Art" "sculptures").getD [])
      else if d1 = "Art" ∧ c1 = "paintings" then some ((s.colls "Art" "paintings").getD [])
      else s.colls d1 c1 := by
  simp [Store.created, ensureColl_colls]

theorem created_nextObjectId (s : Store) : s.created.nextObjectId = s.nextObjectId := by
  simp [Store.created, ensureColl_nextObjectId]

/-! ## Runs -/

/-- A run that succeeds made all five calls, each of which succeeded. -/
theorem run_ok_inv (D : Driver) (s : Store) (h : (run D s).1 = .ok ()) :
    ∃ a s1 s2 s3 c s4 s5,
      D.getSiblingDB "Art" s = .ok (a, s1) ∧
      D.createCollection a "paintings" s1 = .ok ((), s2) ∧
      D.createCollection a "sculptures" s2 = .ok ((), s3) ∧
      D.getCollection a "paintings" s3 = .ok (c, s4) ∧
      D.insert c paintings s4 = .ok ((), s5) ∧
      run D s = (.ok (), { store := s5, trace := scriptCalls a c }) := by
  unfold run at h ⊢
  cases h1 : D.getSiblingDB "Art" s with
  | error e => rw [up_getSiblingDB_error D _ h1] at h; cases h
  | ok p1 =>
    obtain ⟨a, s1⟩ := p1
    cases h2 : D.createCollection a "paintings" s1 with
    | error e => rw [up_createPaintings_error D _ h1 h2] at h; cases h
    | ok p2 =>
      obtain ⟨_, s2⟩ := p2
      cases h3 : D.createCollection a "sculptures" s2 with
      | error e => rw [up_createSculptures_error D _ h1 h2 h3] at h; cases h
      | ok p3 =>
        obtain ⟨_, s3⟩ := p3
        cases h4 : D.getCollection a "paintings" s3 with
        | error e => rw [up_getCollection_error D _ h1 h2 h3 h4] at h; cases h
        | ok p4 =>
          obtain ⟨c, s4⟩ := p4
          cases h5 : D.insert c paintings s4 with
          | error e => rw [up_insert_error D _ h1 h2 h3 h4 h5] at h; cases h
          | ok p5 =>
            obtain ⟨_, s5⟩ := p5
            refine ⟨a, s1, s2, s3, c, s4, s5, rfl, h2, h3, h4, h5, ?_⟩
            rw [up_all_ok D _ h1 h2 h3 h4 h5]
            rfl

/-- Against the reference driver a run ends in one of four stores: the initial
one, the one with "paintings" made, the one with both collections made (all
three with an error), or, on success, the one with the documents inserted. -/
theorem run_mongo_cases (fault : Fault) (s : Store) :
    (∃ e, (run (mongo fault) s).1 = .error e ∧
      (((run (mongo fault) s).2.store = s ∧ (run (mongo fault) s).2.trace.length ≤ 2) ∨
       ((run (mongo fault) s).2.store = s.ensureColl "Art" "paintings" ∧
          (run (mongo fault) s).2.trace.length = 3) ∨
       ((run (mongo fault) s).2.store = s.created ∧
          3 < (run (mongo fault) s).2.trace.length))) ∨
    ((run (mongo fault) s).1 = .ok () ∧
      (run (mongo fault) s).2.store = s.created.withPaintings ∧
      (run (mongo fault) s).2.trace =
        scriptCalls { name := "Art" } { db := "Art", name := "paintings" }) := by
  unfold run
  cases h1 : (mongo fault).getSiblingDB "Art" s with
  | error e => rw [up_getSiblingDB_error _ _ h1]; exact Or.inl ⟨e, rfl, Or.inl ⟨rfl, by simp⟩⟩
  | ok p1 =>
    obtain ⟨a, s1⟩ := p1
    obtain ⟨ha, hs1⟩ := mongo_getSiblingDB_ok h1
    subst a
    subst s1
    cases h2 : (mongo fault).createCollection { name := "Art" } "paintings" s with
    | error e =>
      rw [up_createPaintings_error _ _ h1 h2]; exact Or.inl ⟨e, rfl, Or.inl ⟨rfl, by simp⟩⟩
    | ok p2 =>
      obtain ⟨_, s2⟩ := p2
      have hs2 := mongo_createCollection_ok h2
      subst s2
      cases h3 : (mongo fault).createCollection { name := "Art" } "sculptures"
          (s.ensureColl "Art" "paintings") with
      | error e =>
        rw [up_createSculptures_error _ _ h1 h2 h3]
        exact Or.inl ⟨e, rfl, Or.inr (Or.inl ⟨rfl, by simp⟩)⟩
      | ok p3 =>
        obtain ⟨_, s3⟩ := p3
        have hs3 : s3 = s.created := mongo_createCollection_ok h3
        subst s3
        cases h4 : (mongo fault).getCollection { name := "Art" } "paintings" s.created with
        | error e =>
          rw [up_getCollection_error _ _ h1 h2 h3 h4]
          exact Or.inl ⟨e, rfl, Or.inr (Or.inr ⟨rfl, by simp⟩)⟩
        | ok p4 =>
          obtain ⟨c, s4⟩ := p4
          obtain ⟨hc, hs4⟩ := mongo_getCollection_ok h4
          subst c
          subst s4
          cases h5 : (mongo fault).insert { db := "Art", name := "paintings" } paintings
              s.created with
          | error e =>
            rw [up_insert_error _ _ h1 h2 h3 h4 h5]
            exact Or.inl ⟨e, rfl, Or.inr (Or.inr ⟨rfl, by simp [scriptCalls]⟩)⟩
          | ok p5 =>
            obtain ⟨_, s5⟩ := p5
            have hs5 := mongo_insert_paintings_ok h5
            subst s5
            rw [up_all_ok _ _ h1 h2 h3 h4 h5]
            exact Or.inr ⟨rfl, rfl, by simp⟩

/-- A successful run against the reference driver: final store and trace. -/
theorem run_mongo_ok {fault : Fault} {s : Store} (h : (run (mongo fault) s).1 = .ok ()) :
    (run (mongo fault) s).2.store = s.created.withPaintings ∧
    (run (mongo fault) s).2.trace =
      scriptCalls { name := "Art" } { db := "Art", name := "paintings" } := by
  rcases run_mongo_cases fault s with ⟨e, he, _⟩ | ⟨_, h2⟩
  · rw [he] at h; cases h
  · exact h2

theorem artPaintings_run_ok {fault : Fault} {s : Store} (h : (run (mongo fault) s).1 = .ok ()) :
    (run (mongo fault) s).2.store.colls "Art" "paintings" =
        some (artPaintings s ++
          [withId s.nextObjectId monaLisa, withId (s.nextObjectId + 1) myFirstPainting]) ∧
      (run (mongo fault) s).2.store.nextObjectId = s.nextObjectId + 2 := by
  rw [(run_mongo_ok h).1]
  constructor
  · simp [withPaintings_colls, created_colls, created_nextObjectId, artPaintings]
  · show s.created.nextObjectId + 2 = _
    rw [created_nextObjectId]

/-! ## The claims -/

/-- Claim C1: from every initial store, when all driver calls of up.js succeed,
the collection "paintings" of database "Art" holds both hard-coded documents:
the one with Name "Mona Lisa", Artist "Leonardo da Vinci", Year 1503, Medium
"Oil Paint", and the one with Name "My first painting", Artist the
placeholder text left as written, Year 2018, Medium "Crayons" (each stored
with the `_id` the driver assigned). -/
theorem paintings_holds_both_documents (fault : Fault) (s : Store)
    (h : (run (mongo fault) s).1 = .ok ()) :
    ∃ docs, (run (mongo fault) s).2.store.colls "Art" "paintings" = some docs ∧
      [("_id", Value.objectId s.nextObjectId), ("Name", .str "Mona Lisa"),
        ("Artist", .str "Leonardo da Vinci"), ("Year", .num 1503),
        ("Medium", .str "Oil Paint")] ∈ docs ∧
      [("_id", Value.objectId (s.nextObjectId + 1)), ("Name", .str "My first painting"),
        ("Artist", .str "\x7b#MyName\x7d"), ("Year", .num 2018),
        ("Medium", .str "Crayons")] ∈ docs := by
  refine ⟨_, (artPaintings_run_ok h).1, ?_, ?_⟩
  · simp [withId, monaLisa]
  · simp [withId, myFirstPainting]

theorem paintings_holds_both_documents_witness :
    (run (mongo noFault) emptyStore).1 = .ok () ∧
    ∃ docs, (run (mongo noFault) emptyStore).2.store.colls "Art" "paintings" = some docs ∧
      [("_id", Value.objectId 0), ("Name", .str "Mona Lisa"),
        ("Artist", .str "Leonardo da Vinci"), ("Year", .num 1503),
        ("Medium", .str "Oil Paint")] ∈ docs ∧
      [("_id", Value.objectId 1), ("Name", .str "My first painting"),
        ("Artist", .str "\x7b#MyName\x7d"), ("Year", .num 2018),
        ("Medium", .str "Crayons")] ∈ docs :=
  ⟨rfl, paintings_holds_both_documents noFault emptyStore rfl⟩

/-- Claim C2: from every initial store, when all driver calls of up.js succeed,
database "Art" has a collection "paintings" and a collection "sculptures". -/
theorem both_collections_exist (fault : Fault) (s : Store)
    (h : (run (mongo fault) s).1 = .ok ()) :
    ((run (mongo fault) s).2.store.colls "Art" "paintings").isSome = true ∧
    ((run (mongo fault) s).2.store.colls "Art" "sculptures").isSome = true := by
  rw [(run_mongo_ok h).1]
  simp [withPaintings_colls, created_colls]

theorem both_collections_exist_witness :
    (run (mongo noFault) emptyStore).1 = .ok () ∧
    ((run (mongo noFault) emptyStore).2.store.colls "Art" "paintings").isSome = true ∧
    ((run (mongo noFault) emptyStore).2.store.colls "Art" "sculptures").isSome = true :=
  ⟨rfl, both_collections_exist noFault emptyStore rfl⟩

/-- Claim C3: from every initial store, when all driver calls succeed, one run
of up.js inserts exactly two documents: Art.paintings afterwards is what it
was before followed by the Mona Lisa document and then the My first painting
document, so its size grew by two and the two new documents, in order, carry
the fields of the array `paintings`. -/
theorem run_inserts_exactly_two (fault : Fault) (s : Store)
    (h : (run (mongo fault) s).1 = .ok ()) :
    artPaintings (run (mongo fault) s).2.store =
      artPaintings s ++
        [withId s.nextObjectId monaLisa, withId (s.nextObjectId + 1) myFirstPainting] ∧
    (artPaintings (run (mongo fault) s).2.store).length = (artPaintings s).length + 2 ∧
    ((artPaintings (run (mongo fault) s).2.store).drop (artPaintings s).length).map userFields =
      [monaLisa, myFirstPainting] := by
  have hp : artPaintings (run (mongo fault) s).2.store =
      artPaintings s ++
        [withId s.nextObjectId monaLisa, withId (s.nextObjectId + 1) myFirstPainting] := by
    show ((run (mongo fault) s).2.store.colls "Art" "paintings").getD [] = _
    rw [(artPaintings_run_ok h).1]
    rfl
  refine ⟨hp, ?_, ?_⟩
  · rw [hp]; simp
  · rw [hp, List.drop_left]
    simp [userFields, withId, monaLisa, myFirstPainting]

theorem run_inserts_exactly_two_witness :
    (run (mongo noFault) emptyStore).1 = .ok () ∧
    artPaintings (run (mongo noFault) emptyStore).2.store =
      artPaintings emptyStore ++ [withId 0 monaLisa, withId (0 + 1) myFirstPainting] ∧
    (artPaintings (run (mongo noFault) emptyStore).2.store).length =
      (artPaintings emptyStore).length + 2 ∧
    ((artPaintings (run (mongo noFault) emptyStore).2.store).drop
      (artPaintings emptyStore).length).map userFields = [monaLisa, myFirstPainting] :=
  ⟨rfl, run_inserts_exactly_two noFault emptyStore rfl⟩

/-- Claim C4, as stated, fails: on a run in which every call succeeds the
trace has five calls, not the three named ones, and on a run whose first call
fails the trace is that one call. -/
theorem trace_is_not_three_calls :
    ((run (mongo noFault) emptyStore).1 = .ok () ∧
      (run (mongo noFault) emptyStore).2.trace ≠
        scriptCommands { name := "Art" } { db := "Art", name := "paintings" } ∧
      (run (mongo noFault) emptyStore).2.trace.length = 5) ∧
    (run (mongo allFault) emptyStore).2.trace = [.getSiblingDB "Art"] :=
  ⟨⟨rfl, by decide, rfl⟩, rfl⟩

/-- Claim C4, amended: up.js is a linear sequence of five driver calls; from
every initial store, when all of them succeed, the trace of the run is exactly
getSiblingDB("Art"), createCollection("paintings"),
createCollection("sculptures"), getCollection("paintings"), insert(paintings)
on the handles the driver returned, and the database commands in it are the
three calls create collection, create collection, insert documents, in that
order.  Against the reference driver the handles are those of "Art" and of
"Art"."paintings". -/
theorem trace_is_five_calls (D : Driver) (s : Store) (h : (run D s).1 = .ok ()) :
    (∃ a c,
      (run D s).2.trace =
        [.getSiblingDB "Art", .createCollection a "paintings",
         .createCollection a "sculptures", .getCollection a "paintings",
         .insert c paintings] ∧
      (run D s).2.trace.filter Call.isCommand =
        [.createCollection a "paintings", .createCollection a "sculptures",
         .insert c paintings]) ∧
    (∀ fault, D = mongo fault →
      (run D s).2.trace =
        [.getSiblingDB "Art", .createCollection { name := "Art" } "paintings",
         .createCollection { name := "Art" } "sculptures",
         .getCollection { name := "Art" } "paintings",
         .insert { db := "Art", name := "paintings" } paintings]) := by
  constructor
  · obtain ⟨a, _, _, _, c, _, _, _, _, _, _, _, hr⟩ := run_ok_inv D s h
    refine ⟨a, c, ?_, ?_⟩
    · rw [hr]; rfl
    · rw [hr]; rfl
  · intro fault hD
    subst hD
    exact (run_mongo_ok h).2

theorem trace_is_five_calls_witness :
    (run (mongo noFault) emptyStore).1 = .ok () ∧
    ((∃ a c,
      (run (mongo noFault) emptyStore).2.trace =
        [.getSiblingDB "Art", .createCollection a "paintings",
         .createCollection a "sculptures", .getCollection a "paintings",
         .insert c paintings] ∧
      (run (mongo noFault) emptyStore).2.trace.filter Call.isCommand =
        [.createCollection a "paintings", .createCollection a "sculptures",
         .insert c paintings]) ∧
    (∀ fault, mongo noFault = mongo fault →
      (run (mongo noFault) emptyStore).2.trace =
        [.getSiblingDB "Art", .createCollection { name := "Art" } "paintings",
         .createCollection { name := "Art" } "sculptures",
         .getCollection { name := "Art" } "paintings",
         .insert { db := "Art", name := "paintings" } paintings])) :=
  ⟨rfl, trace_is_five_calls (mongo noFault) emptyStore rfl⟩

/-- Claim C5: up.js handles no error.  Against any driver, from any store, if
a driver call fails (getSiblingDB, either createCollection, getCollection or
insert, the calls before it having succeeded) the result of the script is
that same error, the trace ends with the failed call (no later call is
issued), and the store is the one the successful calls produced (nothing is
rolled back).  Against the reference driver a run that fails at insert ends
with the collections "paintings" and "sculptures" of "Art" in existence. -/
theorem error_ends_script (D : Driver) (fault : Fault) (s : Store) (e : MongoError) :
    (D.getSiblingDB "Art" s = .error e →
      run D s = (.error e, { store := s, trace := [.getSiblingDB "Art"] })) ∧
    (∀ a s1, D.getSiblingDB "Art" s = .ok (a, s1) →
      D.createCollection a "paintings" s1 = .error e →
      run D s = (.error e, { store := s1, trace :=
        [.getSiblingDB "Art", .createCollection a "paintings"] })) ∧
    (∀ a s1 s2, D.getSiblingDB "Art" s = .ok (a, s1) →
      D.createCollection a "paintings" s1 = .ok ((), s2) →
      D.createCollection a "sculptures" s2 = .error e →
      run D s = (.error e, { store := s2, trace :=
        [.getSiblingDB "Art", .createCollection a "paintings",
         .createCollection a "sculptures"] })) ∧
    (∀ a s1 s2 s3, D.getSiblingDB "Art" s = .ok (a, s1) →
      D.createCollection a "paintings" s1 = .ok ((), s2) →
      D.createCollection a "sculptures" s2 = .ok ((), s3) →
      D.getCollection a "paintings" s3 = .error e →
      run D s = (.error e, { store := s3, trace :=
        [.getSiblingDB "Art", .createCollection a "paintings",
         .createCollection a "sculptures", .getCollection a "paintings"] })) ∧
    (∀ a s1 s2 s3 c s4, D.getSiblingDB "Art" s = .ok (a, s1) →
      D.createCollection a "paintings" s1 = .ok ((), s2) →
      D.createCollection a "sculptures" s2 = .ok ((), s3) →
      D.getCollection a "paintings" s3 = .ok (c, s4) →
      D.insert c paintings s4 = .error e →
      run D s = (.error e, { store := s4, trace :=
        [.getSiblingDB "Art", .createCollection a "paintings",
         .createCollection a "sculptures", .getCollection a "paintings",
         .insert c paintings] })) ∧
    ((run (mongo fault) s).1 = .error e →
      (run (mongo fault) s).2.trace =
        [.getSiblingDB "Art", .createCollection { name := "Art" } "paintings",
         .createCollection { name := "Art" } "sculptures",
         .getCollection { name := "Art" } "paintings",
         .insert { db := "Art", name := "paintings" } paintings] →
      ((run (mongo fault) s).2.store.colls "Art" "paintings").isSome = true ∧
      ((run (mongo fault) s).2.store.colls "Art" "sculptures").isSome = true) := by
  refine ⟨?_, ?_, ?_, ?_, ?_, ?_⟩
  · intro h1
    rw [run, up_getSiblingDB_error D _ h1]; rfl
  · intro a s1 h1 h2
    rw [run, up_createPaintings_error D _ h1 h2]; rfl
  · intro a s1 s2 h1 h2 h3
    rw [run, up_createSculptures_error D _ h1 h2 h3]; rfl
  · intro a s1 s2 s3 h1 h2 h3 h4
    rw [run, up_getCollection_error D _ h1 h2 h3 h4]; rfl
  · intro a s1 s2 s3 c s4 h1 h2 h3 h4 h5
    rw [run, up_insert_error D _ h1 h2 h3 h4 h5]; rfl
  · intro he ht
    rcases run_mongo_cases fault s with ⟨_, _, ⟨_, hl⟩ | ⟨_, hl⟩ | ⟨hs, _⟩⟩ | ⟨hok, _⟩
    · rw [ht] at hl; simp at hl
    · rw [ht] at hl; simp at hl
    · rw [hs]; simp [created_colls]
    · rw [he] at hok; cases hok

theorem error_ends_script_witness :
    (mongo insertFault).insert { db := "Art", name := "paintings" } paintings
        emptyStore.created = .error .unavailable ∧
    run (mongo insertFault) emptyStore =
      (.error .unavailable, { store := emptyStore.created, trace :=
        [.getSiblingDB "Art", .createCollection { name := "Art" } "paintings",
         .createCollection { name := "Art" } "sculptures",
         .getCollection { name := "Art" } "paintings",
         .insert { db := "Art", name := "paintings" } paintings] }) ∧
    ((run (mongo insertFault) emptyStore).2.store.colls "Art" "paintings").isSome = true ∧
    ((run (mongo insertFault) emptyStore).2.store.colls "Art" "sculptures").isSome = true :=
  ⟨rfl,
   (error_ends_script (mongo insertFault) insertFault emptyStore .unavailable).2.2.2.2.1
     { name := "Art" } emptyStore (emptyStore.ensureColl "Art" "paintings") emptyStore.created
     { db := "Art", name := "paintings" } emptyStore.created rfl rfl rfl rfl rfl,
   (error_ends_script (mongo insertFault) insertFault emptyStore .unavailable).2.2.2.2.2
     rfl rfl⟩

/-- Claim C6, as stated, fails: from the empty store, when the call
createCollection("sculptures") fails, "sculptures" did not exist before the
run and does not exist after it. -/
theorem sculptures_absent_after_failed_run :
    emptyStore.colls "Art" "sculptures" = none ∧
    (run (mongo sculpturesFault) emptyStore).1 = .error .unavailable ∧
    (run (mongo sculpturesFault) emptyStore).2.store.colls "Art" "sculptures" = none ∧
    (run (mongo sculpturesFault) emptyStore).2.store.colls "Art" "sculptures" ≠ some [] :=
  ⟨rfl, rfl, rfl, by decide⟩

/-- Claim C6, amended: from every initial store and whichever calls fail, a run
of up.js leaves every collection other than "paintings" and "sculptures" of
"Art" as it was, and inserts nothing into "sculptures": if "sculptures"
existed its documents are unchanged; if it did not exist it is afterwards
either still absent or empty, and it exists and is empty once the run got
past createCollection("sculptures") (a fourth call was issued), in
particular when all driver calls succeed. -/
theorem run_frame (fault : Fault) (s : Store) :
    (∀ d c, ¬ (d = "Art" ∧ (c = "paintings" ∨ c = "sculptures")) →
      (run (mongo fault) s).2.store.colls d c = s.colls d c) ∧
    (∀ docs, s.colls "Art" "sculptures" = some docs →
      (run (mongo fault) s).2.store.colls "Art" "sculptures" = some docs) ∧
    (s.colls "Art" "sculptures" = none →
      ((run (mongo fault) s).2.store.colls "Art" "sculptures" = none ∨
        (run (mongo fault) s).2.store.colls "Art" "sculptures" = some []) ∧
      (3 < (run (mongo fault) s).2.trace.length →
        (run (mongo fault) s).2.store.colls "Art" "sculptures" = some []) ∧
      ((run (mongo fault) s).1 = .ok () →
        (run (mongo fault) s).2.store.colls "Art" "sculptures" = some [])) := by
  rcases run_mongo_cases fault s with
    ⟨e, he, ⟨hs, hl⟩ | ⟨hs, hl⟩ | ⟨hs, hl⟩⟩ | ⟨hok, hs, ht⟩
  · rw [hs, he]
    refine ⟨fun _ _ _ => rfl, fun _ h => h, fun h => ⟨Or.inl h, ?_, ?_⟩⟩
    · intro h3; omega
    · intro h3; cases h3
  · rw [hs, he]
    refine ⟨?_, ?_, ?_⟩
    · intro d c hdc
      rw [ensureColl_colls, if_neg]
      exact fun h => hdc ⟨h.1, Or.inl h.2⟩
    · intro docs h
      simpa [ensureColl_colls] using h
    · intro h
      refine ⟨Or.inl (by simpa [ensureColl_colls] using h), ?_, ?_⟩
      · intro h3; omega
      · intro h3; cases h3
  · rw [hs, he]
    refine ⟨?_, ?_, ?_⟩
    · intro d c hdc
      rw [created_colls, if_neg, if_neg]
      · exact fun h => hdc ⟨h.1, Or.inl h.2⟩
      · exact fun h => hdc ⟨h.1, Or.inr h.2⟩
    · intro docs h
      simp [created_colls, h]
    · intro h
      have hc : s.created.colls "Art" "sculptures" = some [] := by simp [created_colls, h]
      exact ⟨Or.inr hc, fun _ => hc, fun _ => hc⟩
  · rw [hs]
    refine ⟨?_, ?_, ?_⟩
    · intro d c hdc
      rw [withPaintings_colls, if_neg, created_colls, if_neg, if_neg]
      · exact fun h => hdc ⟨h.1, Or.inl h.2⟩
      · exact fun h => hdc ⟨h.1, Or.inr h.2⟩
      · exact fun h => hdc ⟨h.1, Or.inl h.2⟩
    · intro docs h
      simp [withPaintings_colls, created_colls, h]
    · intro h
      have hc : s.created.withPaintings.colls "Art" "sculptures" = some [] := by
        simp [withPaintings_colls, created_colls, h]
      exact ⟨Or.inr hc, fun _ => hc, fun _ => hc⟩

theorem run_frame_witness :
    emptyStore.colls "Art" "sculptures" = none ∧
    (run (mongo noFault) emptyStore).1 = .ok () ∧
    (run (mongo noFault) emptyStore).2.store.colls "Art" "sculptures" = some [] ∧
    (run (mongo noFault) galleryStore).2.store.colls "Art" "sculptures" =
      some [[("_id", .objectId 1), ("Name", .str "David")]] ∧
    (run (mongo noFault) galleryStore).2.store.colls "Shop" "orders" =
      galleryStore.colls "Shop" "orders" :=
  ⟨rfl, rfl, ((run_frame noFault emptyStore).2.2 rfl).2.2 rfl,
   (run_frame noFault galleryStore).2.1 _ rfl,
   (run_frame noFault galleryStore).1 "Shop" "orders" (by decide)⟩

/-- Claim C7: up.js is not idempotent.  From every initial store, when all
driver calls of two runs in succession succeed, Art.paintings ends with four
more documents than it had initially: what it had, then the Mona Lisa and
My first painting documents of the first run, then those of the second run
(two copies of each, the inserted documents carrying no `_id` of their own);
this differs from Art.paintings after the first run alone. -/
theorem two_runs_insert_four (fault1 fault2 : Fault) (s : Store)
    (h1 : (run (mongo fault1) s).1 = .ok ())
    (h2 : (run (mongo fault2) (run (mongo fault1) s).2.store).1 = .ok ()) :
    artPaintings (run (mongo fault2) (run (mongo fault1) s).2.store).2.store =
      artPaintings s ++
        [withId s.nextObjectId monaLisa, withId (s.nextObjectId + 1) myFirstPainting,
         withId (s.nextObjectId + 2) monaLisa, withId (s.nextObjectId + 3) myFirstPainting] ∧
    (artPaintings (run (mongo fault2) (run (mongo fault1) s).2.store).2.store).length =
      (artPaintings s).length + 4 ∧
    ((artPaintings (run (mongo fault2) (run (mongo fault1) s).2.store).2.store).drop
        (artPaintings s).length).map userFields =
      [monaLisa, myFirstPainting, monaLisa, myFirstPainting] ∧
    (List.lookup "_id" monaLisa = none ∧ List.lookup "_id" myFirstPainting = none) ∧
    (run (mongo fault2) (run (mongo fault1) s).2.store).2.store.colls "Art" "paintings" ≠
      (run (mongo fault1) s).2.store.colls "Art" "paintings" := by
  have e1 := artPaintings_run_ok h1
  have e2 := artPaintings_run_ok h2
  have hp : artPaintings (run (mongo fault2) (run (mongo fault1) s).2.store).2.store =
      artPaintings s ++
        [withId s.nextObjectId monaLisa, withId (s.nextObjectId + 1) myFirstPainting,
         withId (s.nextObjectId + 2) monaLisa,
         withId (s.nextObjectId + 3) myFirstPainting] := by
    show ((run (mongo fault2) (run (mongo fault1) s).2.store).2.store.colls
      "Art" "paintings").getD [] = _
    rw [e2.1, e1.2]
    show artPaintings (run (mongo fault1) s).2.store ++ _ = _
    have : artPaintings (run (mongo fault1) s).2.store =
        artPaintings s ++
          [withId s.nextObjectId monaLisa, withId (s.nextObjectId + 1) myFirstPainting] := by
      show ((run (mongo fault1) s).2.store.colls "Art" "paintings").getD [] = _
      rw [e1.1]; rfl
    rw [this]
    simp [Nat.add_assoc]
  refine ⟨hp, ?_, ?_, ⟨monaLisa_no_id, myFirstPainting_no_id⟩, ?_⟩
  · rw [hp]; simp
  · rw [hp, List.drop_left]
    simp [userFields, withId, monaLisa, myFirstPainting]
  · intro hc
    have hl := congrArg (fun o => (Option.getD o []).length) hc
    have hp1 : artPaintings (run (mongo fault1) s).2.store =
        artPaintings s ++
          [withId s.nextObjectId monaLisa, withId (s.nextObjectId + 1) myFirstPainting] := by
      show ((run (mongo fault1) s).2.store.colls "Art" "paintings").getD [] = _
      rw [e1.1]; rfl
    simp only [e2.1, e1.1, e1.2] at hl
    simp [hp1] at hl

theorem two_runs_insert_four_witness :
    (run (mongo noFault) emptyStore).1 = .ok () ∧
    (run (mongo noFault) (run (mongo noFault) emptyStore).2.store).1 = .ok () ∧
    (artPaintings (run (mongo noFault) (run (mongo noFault) emptyStore).2.store).2.store).length =
      (artPaintings emptyStore).length + 4 ∧
    (run (mongo noFault) (run (mongo noFault) emptyStore).2.store).2.store.colls
        "Art" "paintings" ≠
      (run (mongo noFault) emptyStore).2.store.colls "Art" "paintings" :=
  ⟨rfl, rfl, (two_runs_insert_four noFault noFault emptyStore rfl rfl).2.1,
   (two_runs_insert_four noFault noFault emptyStore rfl rfl).2.2.2.2⟩

/-- Claim C8: up.js never removes or alters an existing document.  From every
initial store and whichever calls fail, if the collection Art.paintings
existed before the run (so also when createCollection("paintings") is called
on it), it exists after the run and its documents are the same ones, in the
same places, possibly followed by new ones. -/
theorem existing_documents_kept (fault : Fault) (s : Store) (docs : List Document)
    (h : s.colls "Art" "paintings" = some docs) :
    ∃ added, (run (mongo fault) s).2.store.colls "Art" "paintings" = some (docs ++ added) := by
  rcases run_mongo_cases fault s with
    ⟨e, he, ⟨hs, hl⟩ | ⟨hs, hl⟩ | ⟨hs, hl⟩⟩ | ⟨hok, hs, ht⟩
  · exact ⟨[], by rw [hs, h]; simp⟩
  · exact ⟨[], by rw [hs]; simp [ensureColl_colls, h]⟩
  · exact ⟨[], by rw [hs]; simp [created_colls, h]⟩
  · exact ⟨_, by rw [hs]; simp [withPaintings_colls, created_colls, h]; rfl⟩

theorem existing_documents_kept_witness :
    galleryStore.colls "Art" "paintings" =
      some [[("_id", .objectId 0), ("Name", .str "Sunflowers")]] ∧
    ∃ added, (run (mongo noFault) galleryStore).2.store.colls "Art" "paintings" =
      some ([[("_id", .objectId 0), ("Name", .str "Sunflowers")]] ++ added) :=
  ⟨rfl, existing_documents_kept noFault galleryStore _ rfl⟩

end MongoChains
